import Mathlib

/-!
Shallow embedding of the FlexiGrow backend's `/api/data` handler
(`src/server.js`): heuristic table resolution over an information-schema
catalog, column classification, query building, result formatting and the
error-classification boundary.  ASCII case folding models the JavaScript
`toLowerCase` / SQL Server case-insensitive collation on the identifier
strings involved.  Whitespace in emitted query text is normalized to single
spaces (the source uses a multi-line template literal).
-/

/-- ASCII lower-casing of one character, modelling JavaScript
`String.prototype.toLowerCase` on the ASCII identifiers the server handles. -/
def lowerChar (c : Char) : Char :=
  if 'A' ≤ c ∧ c ≤ 'Z' then Char.ofNat (c.toNat + 32) else c

/-- ASCII lower-casing of a string. -/
def toLowerStr (s : String) : String :=
  String.mk (s.data.map lowerChar)

/-- Does the second list start with the first one? -/
def startsWithL : List Char → List Char → Bool
  | [], _ => true
  | _ :: _, [] => false
  | a :: as, b :: bs => a == b && startsWithL as bs

/-- Does `needle` occur as a contiguous run inside `hay`?  Models the
case-sensitive JavaScript `String.prototype.includes`. -/
def containsL (needle : List Char) : List Char → Bool
  | [] => needle.isEmpty
  | c :: cs => startsWithL needle (c :: cs) || containsL needle cs

/-- `includesStr hay needle` models JavaScript `hay.includes(needle)`
(case-sensitive). -/
def includesStr (hay needle : String) : Bool :=
  containsL needle.data hay.data

/-- JavaScript string truthiness: every string except `""` is truthy. -/
def strTruthy (s : String) : Bool := s != ""

/-- Truthiness of a nullable string (`null`/`undefined` are falsy). -/
def optTruthy : Option String → Bool
  | none => false
  | some s => strTruthy s

/-- JavaScript `a || b` on nullable strings: `b` when `a` is falsy. -/
def jsOr (a b : Option String) : Option String :=
  if optTruthy a then a else b

/-- Fuelled SQL `LIKE` matcher over characters: `%` matches any run, `_`
matches exactly one character, letters compare case-insensitively (the
database collation used by the server is case-insensitive). -/
def likeAux : Nat → List Char → List Char → Bool
  | 0, _, _ => false
  | _ + 1, [], [] => true
  | _ + 1, [], _ :: _ => false
  | fuel + 1, '%' :: ps, [] => likeAux fuel ps []
  | fuel + 1, '%' :: ps, c :: ts =>
      likeAux fuel ps (c :: ts) || likeAux fuel ('%' :: ps) ts
  | _ + 1, '_' :: _, [] => false
  | fuel + 1, '_' :: ps, _ :: ts => likeAux fuel ps ts
  | _ + 1, _ :: _, [] => false
  | fuel + 1, p :: ps, c :: ts =>
      (lowerChar p == lowerChar c) && likeAux fuel ps ts

/-- `sqlLike pat s` is SQL Server `s LIKE pat` under a case-insensitive
collation.  Each `likeAux` step shrinks `pattern length + text length`, so
the given fuel always suffices. -/
def sqlLike (pat s : String) : Bool :=
  likeAux (pat.data.length + s.data.length + 1) pat.data s.data

/-- One column row of `INFORMATION_SCHEMA.COLUMNS`, in ordinal order inside
its table. -/
structure CatalogColumn where
  name : String
  dataType : String
  nullable : Bool
deriving DecidableEq, Repr

/-- One table of `INFORMATION_SCHEMA.TABLES` together with its column rows. -/
structure CatalogTable where
  schema : String
  name : String
  tableType : String
  cols : List CatalogColumn
deriving DecidableEq, Repr

/-- The database catalog visible to the handler. -/
structure Database where
  tables : List CatalogTable
deriving DecidableEq, Repr

/-- Loan-identifier column patterns of the table-search query
(`c.COLUMN_NAME LIKE '%Loan%ID%' OR ... '%LoanId%' OR ... '%Loan_ID%'`). -/
def loanIdCond (col : String) : Bool :=
  sqlLike "%Loan%ID%" col || sqlLike "%LoanId%" col || sqlLike "%Loan_ID%" col

/-- Client-identifier column patterns of the table-search query. -/
def clientIdCond (col : String) : Bool :=
  sqlLike "%Client%ID%" col || sqlLike "%ClientId%" col || sqlLike "%Client_ID%" col

/-- Premium/commission column patterns of the table-search query. -/
def premiumCommissionCond (col : String) : Bool :=
  sqlLike "%Premium%" col || sqlLike "%Commission%" col

/-- The conjunction applied to a single joined column row in the search
query's `WHERE` clause: one and the same column name must match all three
groups at once. -/
def keyColumnRowCond (col : String) : Bool :=
  loanIdCond col && clientIdCond col && premiumCommissionCond col

/-- Table-name patterns of the search query
(`t.TABLE_NAME LIKE '%Business%Written%' OR ... OR '%Transaction%'`). -/
def tableNameCond (name : String) : Bool :=
  sqlLike "%Business%Written%" name || sqlLike "%Business_Written%" name ||
  sqlLike "%BusinessWritten%" name || sqlLike "%Loan%" name ||
  sqlLike "%Policy%" name || sqlLike "%Transaction%" name

/-- The inner join `TABLES t JOIN COLUMNS c` of the table-search query: one
row per (table, column) pair. -/
def joinedRows (db : Database) : List (CatalogTable × CatalogColumn) :=
  db.tables.flatMap (fun t => t.cols.map (fun c => (t, c)))

/-- `WHERE` clause of the table-search query, evaluated per joined row.
`AND` binds tighter than `OR`, so the `TABLE_TYPE = 'BASE TABLE'` conjunct
only guards the column conditions. -/
def rowSatisfies (tc : CatalogTable × CatalogColumn) : Bool :=
  (tc.1.tableType == "BASE TABLE" && keyColumnRowCond tc.2.name) ||
    tableNameCond tc.1.name

/-- `SELECT DISTINCT t.TABLE_SCHEMA, t.TABLE_NAME` over the filtered join:
the set of candidate tables. -/
def candidatesOf (db : Database) : List CatalogTable :=
  (((joinedRows db).filter rowSatisfies).map (fun tc => tc.1)).dedup

/-- Ranking `CASE` expression of the search query's `ORDER BY`. -/
def rankOf (name : String) : Nat :=
  if sqlLike "%Business%Written%" name then 1
  else if sqlLike "%Business_Written%" name then 2
  else if sqlLike "%BusinessWritten%" name then 3
  else 4

/-- Any of the three "business written" name variants of the search query. -/
def businessWrittenMatch (name : String) : Bool :=
  sqlLike "%Business%Written%" name || sqlLike "%Business_Written%" name ||
    sqlLike "%BusinessWritten%" name

/-- Ordering key of the search query: rank first, then table name
ascending. -/
def tableKeyLe (a b : CatalogTable) : Bool :=
  rankOf a.name < rankOf b.name ||
    (rankOf a.name == rankOf b.name && decide (a.name ≤ b.name))

/-- The ordering key as a decidable relation, for sorting. -/
def tableKeyRel (a b : CatalogTable) : Prop := tableKeyLe a b = true

instance : DecidableRel tableKeyRel :=
  fun a b => inferInstanceAs (Decidable (tableKeyLe a b = true))

/-- Candidates in the order delivered by the search query's `ORDER BY`
(modelled with a stable sort on the `(rank, name)` key). -/
def sortedCandidates (db : Database) : List CatalogTable :=
  (candidatesOf db).insertionSort tableKeyRel

/-- `tablesResult.recordset[0]`: the single table the handler proceeds
with, `none` when the candidate set is empty. -/
def resolvedTable (db : Database) : Option CatalogTable :=
  (sortedCandidates db).head?

/-- Name patterns that make a column date-like by name
(`col.toLowerCase().includes('date') || ... 'written' || 'created' ||
'time'`). -/
def nameDateLike (col : String) : Bool :=
  includesStr (toLowerStr col) "date" || includesStr (toLowerStr col) "written" ||
  includesStr (toLowerStr col) "created" || includesStr (toLowerStr col) "time"

/-- Date-column selection of the handler (Step 3): first name-pattern
match, else first column whose declared type contains `date`, else — when
any column exists — the first column whose type contains `date` or `time`
(the `DATA_TYPE` checks are case-sensitive, as in the JavaScript source). -/
def dateColumnOf (recordset : List CatalogColumn) : Option String :=
  let columns := recordset.map (fun r => r.name)
  let dateColumns := columns.filter nameDateLike
  let dc0 := jsOr dateColumns.head?
    (columns.find? (fun col =>
      (recordset.find? (fun r => r.name == col && includesStr r.dataType "date")).isSome))
  if optTruthy dc0 then dc0
  else if columns.isEmpty then dc0
  else
    match recordset.find? (fun r =>
        includesStr r.dataType "date" || includesStr r.dataType "time") with
    | some r => some r.name
    | none => none

/-- The fixed vocabulary `reportColumnPatterns` of the handler. -/
def reportColumnPatterns : List String :=
  ["date", "loan", "client", "user", "source", "premium", "amendment",
   "admin", "fee", "interest", "commission", "financed", "income"]

/-- A column is a key column when its lower-cased name contains one of the
report patterns. -/
def isKeyColumn (col : String) : Bool :=
  reportColumnPatterns.any (fun pat => includesStr (toLowerStr col) pat)

/-- `keyColumns = columns.filter(...)`, in catalog ordinal order. -/
def keyColumnsOf (columns : List String) : List String :=
  columns.filter isKeyColumn

/-- JavaScript strict inequality `c !== dateColumn` where `dateColumn` may
be `null`/`undefined`: a string never equals a missing value. -/
def neqOptStr (c : String) : Option String → Bool
  | none => true
  | some d => c != d

/-- Key columns other than the date column, in catalog ordinal order. -/
def keyRemainder (columns : List String) (dc : Option String) : List String :=
  (keyColumnsOf columns).filter (fun c => neqOptStr c dc)

/-- Non-key columns other than the date column, in catalog ordinal order. -/
def otherRemainder (columns : List String) (dc : Option String) : List String :=
  columns.filter (fun c => neqOptStr c dc && !((keyColumnsOf columns).contains c))

/-- The date-column head of the projection: `[dateColumn]` when present,
nothing otherwise. -/
def dateColumnPart : Option String → List String
  | some d => [d]
  | none => []

/-- `selectColumns` of the handler: date column, then remaining key
columns, then the rest, with falsy entries dropped (`.filter(Boolean)`) and
truncated to 50 (`.slice(0, 50)`). -/
def selectColumnsOf (columns : List String) (dc : Option String) : List String :=
  (((dateColumnPart dc ++ keyRemainder columns dc ++ otherRemainder columns dc).filter
      strTruthy)).take 50

/-- The quoting the source applies to every identifier it interpolates
into query text: wrap in square brackets, with no escaping of the
identifier's own characters. -/
def bracketQuote (s : String) : String := "[" ++ s ++ "]"

/-- `selectList`: each selected column wrapped in square brackets, joined
by commas.  No escaping is applied to the column names. -/
def selectListOf (cols : List String) : String :=
  String.intercalate ", " (cols.map bracketQuote)

/-- Query text built by the handler (whitespace normalized to single
spaces).  `startDate`/`endDate` are in scope in the source at this point
but do not occur in the template literal; they are parameters here so that
their non-occurrence is a provable statement rather than a typing
accident. -/
def buildQueryText (schema tableName : String) (selectCols : List String)
    (dc : Option String) (startDate endDate : String) : String :=
  if optTruthy dc then
    "SELECT TOP 1000 " ++ selectListOf selectCols ++ " FROM [" ++ schema ++
      "].[" ++ tableName ++ "] WHERE [" ++ dc.getD "" ++
      "] BETWEEN @startDate AND @endDate ORDER BY [" ++ dc.getD "" ++ "] DESC"
  else
    "SELECT TOP 1000 " ++ selectListOf selectCols ++ " FROM [" ++ schema ++
      "].[" ++ tableName ++ "] ORDER BY (SELECT NULL)"

/-- Bound parameters attached to the request: the two typed date bounds
exactly when a date column is present (`request.input('startDate', ...)`). -/
def boundParamsOf (dc : Option String) (startDate endDate : String) :
    List (String × String) :=
  if optTruthy dc then [("startDate", startDate), ("endDate", endDate)] else []

/-- Scalar cell values as delivered by the driver: `vDate ms` is a
JavaScript `Date` holding `ms` milliseconds since the Unix epoch. -/
inductive SqlValue where
  | vNull : SqlValue
  | vBool : Bool → SqlValue
  | vInt : Int → SqlValue
  | vStr : String → SqlValue
  | vDate : Int → SqlValue
deriving DecidableEq, Repr

/-- Is the cell a date/time value (`value instanceof Date`)? -/
def isDateValue : SqlValue → Bool
  | SqlValue.vDate _ => true
  | _ => false

/-- Proleptic-Gregorian civil date from days since the Unix epoch
(`1970-01-01`), the arithmetic behind `Date.prototype.toISOString`.
Integer division here is Euclidean, which is floor division for the
positive divisors used. -/
def civilFromDays (z0 : Int) : Int × Int × Int :=
  let z := z0 + 719468
  let era : Int := z / 146097
  let doe : Int := z - era * 146097
  let yoe : Int := (doe - doe / 1460 + doe / 36524 - doe / 146096) / 365
  let y : Int := yoe + era * 400
  let doy : Int := doe - (365 * yoe + yoe / 4 - yoe / 100)
  let mp : Int := (5 * doy + 2) / 153
  let d : Int := doy - (153 * mp + 2) / 5 + 1
  let m : Int := if mp < 10 then mp + 3 else mp - 9
  (if m ≤ 2 then y + 1 else y, m, d)

/-- Two-digit zero padding for months and days. -/
def pad2 (n : Int) : String :=
  if n < 10 then "0" ++ toString n else toString n

/-- Four-digit zero padding for years in the range `toISOString` prints
with four digits. -/
def pad4 (n : Int) : String :=
  if n < 10 then "000" ++ toString n
  else if n < 100 then "00" ++ toString n
  else if n < 1000 then "0" ++ toString n
  else toString n

/-- `value.toISOString().split('T')[0]` for a `Date` holding `ms`
milliseconds since the epoch: the UTC calendar date as `YYYY-MM-DD`.  The
containing UTC day is `⌊ms / 86400000⌋`. -/
def isoDateOf (ms : Int) : String :=
  let ymd := civilFromDays (ms / 86400000)
  pad4 ymd.1 ++ "-" ++ pad2 ymd.2.1 ++ "-" ++ pad2 ymd.2.2

/-- Per-cell formatting of the response step: dates become their UTC
calendar date string, everything else passes through unchanged. -/
def formatCell : SqlValue → SqlValue
  | SqlValue.vDate ms => SqlValue.vStr (isoDateOf ms)
  | v => v

/-- Per-row formatting: the same keys, each value formatted. -/
def formatRow (row : List (String × SqlValue)) : List (String × SqlValue) :=
  row.map (fun kv => (kv.1, formatCell kv.2))

/-- `result.recordset.map(row => ...)`: a fresh sequence of formatted
rows. -/
def formatRows (rows : List (List (String × SqlValue))) :
    List (List (String × SqlValue)) :=
  rows.map formatRow

/-- The fixed error taxonomy the specification names for `errorCode`. -/
def errorTaxonomy : List String :=
  ["AUTHENTICATION_ERROR", "CONNECTION_TIMEOUT", "TLS_ERROR",
   "TABLE_NOT_FOUND", "UNKNOWN"]

/-- Message patterns the catch handler treats as TLS failures. -/
def tlsMessageCond (msg : String) : Bool :=
  includesStr msg "TLS" || includesStr msg "SSL" ||
  includesStr msg "unsupported protocol" ||
  includesStr msg "ssl_choose_client_version"

/-- The catch handler of `/api/data`: from the thrown error's `code` and
`message` to the `(errorCode, userMessage)` pair of the 500 response.
`error.code || 'UNKNOWN'` is JavaScript truthiness on the code. -/
def classifyError (code : Option String) (message : String) : String × String :=
  let rawCode := match code with
    | some c => if strTruthy c then c else "UNKNOWN"
    | none => "UNKNOWN"
  if code == some "ELOGIN" then
    ("AUTHENTICATION_ERROR", "Login failed. Check username/password.")
  else if code == some "ETIMEOUT" || code == some "ETIMEDOUT" then
    ("CONNECTION_TIMEOUT",
      "Connection timeout. Server may be down or firewall blocking.")
  else if strTruthy message && tlsMessageCond message then
    ("TLS_ERROR",
      if includesStr message "SOLUTION REQUIRED" then message
      else "TLS/SSL Error: Connection failed. Node.js 18 should have better compatibility, but SQL Server may need configuration updates.")
  else if strTruthy message && includesStr message "Invalid object name" then
    ("TABLE_NOT_FOUND", "Table not found. Database structure may have changed.")
  else (rawCode, message)

/-- The 500 response the catch handler sends for a given error. -/
structure ErrorResponse where
  status : Nat
  success : Bool
  errorMessage : String
  errorCode : String
deriving DecidableEq, Repr

/-- Catch handler output for an error with the given `code`/`message`. -/
def errorResponseOf (code : Option String) (message : String) : ErrorResponse :=
  { status := 500
    success := false
    errorMessage := (classifyError code message).2
    errorCode := (classifyError code message).1 }

/-- Database operations the handler performs, in order. -/
inductive DbOp where
  | connect : DbOp
  | queryTables : DbOp
  | queryColumns : String → String → DbOp
  | queryData : String → List (String × String) → DbOp
deriving DecidableEq, Repr

/-- The JSON response of the `/api/data` handler on its non-throwing
paths. -/
structure DataResponse where
  status : Nat
  success : Bool
  errorMessage : Option String
  errorCode : Option String
  table : Option String
  dateColumn : Option String
  columns : List String
  data : List (List (String × SqlValue))
deriving DecidableEq, Repr

/-- The `/api/data` handler over request parameters and the catalog:
validation, table resolution, column discovery, classification, query
building and result formatting, together with the trace of database
operations it performs.  `colsOf schema table` stands for the recordset the
separate `INFORMATION_SCHEMA.COLUMNS` query returns for the resolved table
(the handler uses it without any consistency or emptiness check), and
`execRows` for the rows the data query returns when executed. -/
def handleData (startDate endDate : Option String) (db : Database)
    (colsOf : String → String → List CatalogColumn)
    (execRows : List (List (String × SqlValue))) : DataResponse × List DbOp :=
  if !(optTruthy startDate) || !(optTruthy endDate) then
    ({ status := 400, success := false
       errorMessage := some "Missing startDate or endDate parameters. Use: ?startDate=YYYY-MM-DD&endDate=YYYY-MM-DD"
       errorCode := none, table := none, dateColumn := none
       columns := [], data := [] }, [])
  else
    match resolvedTable db with
    | none =>
      ({ status := 404, success := false
         errorMessage := some "No Business Written table found in database"
         errorCode := none, table := none, dateColumn := none
         columns := [], data := [] },
       [DbOp.connect, DbOp.queryTables])
    | some t =>
      let schema := if strTruthy t.schema then t.schema else "dbo"
      let recordset := colsOf schema t.name
      let columns := recordset.map (fun r => r.name)
      let dc := dateColumnOf recordset
      let sel := selectColumnsOf columns dc
      let s := startDate.getD ""
      let e := endDate.getD ""
      let text := buildQueryText schema t.name sel dc s e
      let params := boundParamsOf dc s e
      ({ status := 200, success := true, errorMessage := none, errorCode := none
         table := some (schema ++ "." ++ t.name)
         dateColumn := if optTruthy dc then dc else none
         columns := columns
         data := formatRows execRows },
       [DbOp.connect, DbOp.queryTables, DbOp.queryColumns schema t.name,
        DbOp.queryData text params])

/-! ## Resolver lemmas shared across the resolver claims -/

/-- Membership in the candidate list is existence of a joined column row
satisfying the search query's `WHERE` clause. -/
theorem mem_candidatesOf {db : Database} {t : CatalogTable} :
    t ∈ candidatesOf db ↔
      t ∈ db.tables ∧ ∃ c ∈ t.cols, rowSatisfies (t, c) = true := by
  simp only [candidatesOf, joinedRows, List.mem_dedup, List.mem_map, List.mem_filter,
    List.mem_flatMap, Prod.exists]
  constructor
  · rintro ⟨a, b, ⟨⟨u, hu, hb⟩, hsat⟩, rfl⟩
    rcases hb with ⟨c, hc, heq⟩
    cases heq
    exact ⟨hu, b, hc, hsat⟩
  · rintro ⟨ht, c, hc, hsat⟩
    exact ⟨t, c, ⟨⟨t, ht, c, hc, rfl⟩, hsat⟩, rfl⟩

/-- The ordering key, spelled out as a proposition. -/
theorem tableKeyLe_iff {a b : CatalogTable} :
    tableKeyLe a b = true ↔
      rankOf a.name < rankOf b.name ∨
        (rankOf a.name = rankOf b.name ∧ a.name ≤ b.name) := by
  simp [tableKeyLe]

/-- The ordering key is reflexive. -/
theorem tableKeyLe_refl (a : CatalogTable) : tableKeyLe a a = true := by
  simp [tableKeyLe]

/-- The ordering key is total. -/
theorem tableKeyLe_total (a b : CatalogTable) :
    tableKeyLe a b = true ∨ tableKeyLe b a = true := by
  rw [tableKeyLe_iff, tableKeyLe_iff]
  rcases Nat.lt_trichotomy (rankOf a.name) (rankOf b.name) with h | h | h
  · exact Or.inl (Or.inl h)
  · rcases le_total a.name b.name with hn | hn
    · exact Or.inl (Or.inr ⟨h, hn⟩)
    · exact Or.inr (Or.inr ⟨h.symm, hn⟩)
  · exact Or.inr (Or.inl h)

/-- The ordering key is transitive. -/
theorem tableKeyLe_trans (a b c : CatalogTable)
    (h1 : tableKeyLe a b = true) (h2 : tableKeyLe b c = true) :
    tableKeyLe a c = true := by
  rw [tableKeyLe_iff] at h1 h2 ⊢
  rcases h1 with h1 | ⟨h1, h1n⟩ <;> rcases h2 with h2 | ⟨h2, h2n⟩
  · exact Or.inl (h1.trans h2)
  · exact Or.inl (h2 ▸ h1)
  · exact Or.inl (h1 ▸ h2)
  · exact Or.inr ⟨h1.trans h2, h1n.trans h2n⟩

instance : IsTotal CatalogTable tableKeyRel := ⟨tableKeyLe_total⟩

instance : IsTrans CatalogTable tableKeyRel := ⟨tableKeyLe_trans⟩

/-- A resolved table is a candidate and is minimal for the ordering key. -/
theorem resolvedTable_min {db : Database} {t : CatalogTable}
    (h : resolvedTable db = some t) :
    t ∈ candidatesOf db ∧ ∀ u ∈ candidatesOf db, tableKeyLe t u = true := by
  have hperm : List.Perm (sortedCandidates db) (candidatesOf db) :=
    List.perm_insertionSort tableKeyRel (candidatesOf db)
  have hsorted : List.Sorted tableKeyRel (sortedCandidates db) :=
    List.sorted_insertionSort tableKeyRel (candidatesOf db)
  unfold resolvedTable at h
  cases hl : sortedCandidates db with
  | nil => rw [hl] at h; simp at h
  | cons x rest =>
    rw [hl] at h hperm hsorted
    simp only [List.head?_cons, Option.some.injEq] at h
    subst h
    refine ⟨hperm.mem_iff.mp (List.mem_cons_self _ _), ?_⟩
    intro u hu
    have hu' : u ∈ x :: rest := hperm.symm.mem_iff.mp hu
    rcases List.mem_cons.mp hu' with rfl | hur
    · exact tableKeyLe_refl _
    · exact List.rel_of_sorted_cons hsorted u hur

/-- An empty candidate set is the only way the resolver yields nothing. -/
theorem resolvedTable_none_iff {db : Database} :
    resolvedTable db = none ↔ candidatesOf db = [] := by
  unfold resolvedTable
  rw [List.head?_eq_none_iff]
  constructor
  · intro h
    have hperm : List.Perm (sortedCandidates db) (candidatesOf db) :=
      List.perm_insertionSort tableKeyRel (candidatesOf db)
    rw [h] at hperm
    exact hperm.symm.eq_nil
  · intro h
    simp [sortedCandidates, h]

/-! ## C1: Table Resolver candidacy and failure -/

/-- Follows claim C1's words: the fixed domain keyword patterns for a
table NAME — the "business written" variants and case-insensitive
substrings `loan`, `policy`, `transaction`, `premium`, `commission`. -/
def nameKeywordSpec (name : String) : Bool :=
  businessWrittenMatch name || includesStr (toLowerStr name) "loan" ||
  includesStr (toLowerStr name) "policy" ||
  includesStr (toLowerStr name) "transaction" ||
  includesStr (toLowerStr name) "premium" ||
  includesStr (toLowerStr name) "commission"

/-- Follows claim C1's words: a table is a candidate iff its name matches a
domain keyword pattern, or it has at least one column matching each of the
three concept groups. -/
def specTableCandidate (t : CatalogTable) : Bool :=
  nameKeywordSpec t.name ||
    (t.cols.any (fun c => loanIdCond c.name) &&
     t.cols.any (fun c => clientIdCond c.name) &&
     t.cols.any (fun c => premiumCommissionCond c.name))

/-- A base table whose name contains `premium` but matches none of the
search query's table-name patterns, and whose single column matches none of
its column patterns. -/
def premiumTable : CatalogTable :=
  { schema := "dbo", name := "PremiumTable", tableType := "BASE TABLE",
    cols := [{ name := "X", dataType := "int", nullable := true }] }

/-- A one-table catalog holding only `premiumTable`. -/
def dbPremium : Database := { tables := [premiumTable] }

/-- C1 counterexample: `PremiumTable` is a candidate by the claim's keyword
list (its name contains `premium`), yet the code's table-search query does
not return it — `premium` and `commission` are not among the query's
table-name patterns. -/
theorem c1_counterexample :
    specTableCandidate premiumTable = true ∧
      premiumTable ∈ dbPremium.tables ∧
      premiumTable ∉ candidatesOf dbPremium := by
  refine ⟨by decide, by decide, ?_⟩
  intro h
  have := mem_candidatesOf.mp h
  revert this
  decide

/-- C1 (amended): a table is a candidate iff it has at least one column and
either (its type is `BASE TABLE` and some single column simultaneously
matches the loan-id, client-id and premium-or-commission patterns) or its
name matches one of `%Business%Written%`, `%Business_Written%`,
`%BusinessWritten%`, `%Loan%`, `%Policy%`, `%Transaction%` (`premium` and
`commission` are not table-name patterns); given well-formed date
parameters, the handler answers 404 NotFound exactly when the candidate
set is empty, and otherwise proceeds with some member of the candidate
set. -/
theorem c1_resolver_candidacy (s e : Option String) (db : Database)
    (colsOf : String → String → List CatalogColumn)
    (rows : List (List (String × SqlValue)))
    (hs : optTruthy s = true) (he : optTruthy e = true) :
    (∀ t, t ∈ candidatesOf db ↔
        t ∈ db.tables ∧ t.cols ≠ [] ∧
          ((t.tableType = "BASE TABLE" ∧ ∃ c ∈ t.cols, keyColumnRowCond c.name = true) ∨
            tableNameCond t.name = true)) ∧
    ((handleData s e db colsOf rows).1.status = 404 ↔ candidatesOf db = []) ∧
    ((handleData s e db colsOf rows).1.status = 404 →
      (handleData s e db colsOf rows).1.success = false) ∧
    (∀ t, resolvedTable db = some t → t ∈ candidatesOf db) ∧
    (candidatesOf db ≠ [] → ∃ t, resolvedTable db = some t) := by
  refine ⟨?_, ?_, ?_, ?_, ?_⟩
  · intro t
    rw [mem_candidatesOf]
    constructor
    · rintro ⟨ht, c, hc, hsat⟩
      refine ⟨ht, (by intro hnil; rw [hnil] at hc; cases hc), ?_⟩
      simp only [rowSatisfies, Bool.or_eq_true, Bool.and_eq_true, beq_iff_eq] at hsat
      rcases hsat with ⟨hbase, hkey⟩ | hname
      · exact Or.inl ⟨hbase, c, hc, hkey⟩
      · exact Or.inr hname
    · rintro ⟨ht, hne, hcond⟩
      rcases hcond with ⟨hbase, c, hc, hkey⟩ | hname
      · refine ⟨ht, c, hc, ?_⟩
        simp only [rowSatisfies, Bool.or_eq_true, Bool.and_eq_true, beq_iff_eq]
        exact Or.inl ⟨hbase, hkey⟩
      · rcases List.exists_mem_of_ne_nil t.cols hne with ⟨c, hc⟩
        refine ⟨ht, c, hc, ?_⟩
        simp only [rowSatisfies, Bool.or_eq_true]
        exact Or.inr hname
  · cases hrt : resolvedTable db with
    | none =>
      simp only [handleData, hs, he, Bool.not_true, Bool.or_self, Bool.false_eq_true,
        if_false, hrt]
      simpa using resolvedTable_none_iff.mp hrt
    | some t =>
      have hne : candidatesOf db ≠ [] := by
        intro hc
        rw [resolvedTable_none_iff.mpr hc] at hrt
        cases hrt
      simp only [handleData, hs, he, Bool.not_true, Bool.or_self, Bool.false_eq_true,
        if_false, hrt]
      constructor
      · intro h200
        simp at h200
      · intro hc
        exact absurd hc hne
  · intro h404
    cases hrt : resolvedTable db with
    | none =>
      simp [handleData, hs, he, hrt]
    | some t =>
      simp [handleData, hs, he, hrt] at h404
  · intro t ht
    exact (resolvedTable_min ht).1
  · intro hne
    cases hrt : resolvedTable db with
    | none => exact absurd (resolvedTable_none_iff.mp hrt) hne
    | some t => exact ⟨t, rfl⟩

/-- C1 witness: the amended candidacy/404 equivalence instantiated on the
concrete one-table catalog. -/
theorem c1_witness :
    (handleData (some "2024-01-01") (some "2024-01-31") dbPremium
        (fun _ _ => []) []).1.status = 404 ↔
      candidatesOf dbPremium = [] :=
  (c1_resolver_candidacy (some "2024-01-01") (some "2024-01-31") dbPremium
    (fun _ _ => []) [] (by decide) (by decide)).2.1

/-! ## C2: Table Resolver ranking -/

/-- C2: ranks 1–3 are exactly the "business written" name matches, every
other candidate ranks 4, the resolved table is minimal in
(rank, ascending name) among candidates, any business-written candidate
beats every generic-only candidate, and the handler's response reports the
resolved table. -/
theorem c2_resolver_ranking (db : Database) (t : CatalogTable)
    (h : resolvedTable db = some t) :
    t ∈ candidatesOf db ∧
    (∀ u ∈ candidatesOf db,
      rankOf t.name < rankOf u.name ∨
        (rankOf t.name = rankOf u.name ∧ t.name ≤ u.name)) ∧
    (∀ name, (businessWrittenMatch name = true →
        1 ≤ rankOf name ∧ rankOf name ≤ 3) ∧
      (businessWrittenMatch name = false → rankOf name = 4)) ∧
    ((∃ u ∈ candidatesOf db, businessWrittenMatch u.name = true) →
      businessWrittenMatch t.name = true) ∧
    (∀ s e colsOf rows, optTruthy s = true → optTruthy e = true →
      (handleData s e db colsOf rows).1.table =
        some ((if strTruthy t.schema then t.schema else "dbo") ++ "." ++ t.name)) := by
  obtain ⟨hmem, hmin⟩ := resolvedTable_min h
  have hrank : ∀ name, (businessWrittenMatch name = true →
      1 ≤ rankOf name ∧ rankOf name ≤ 3) ∧
      (businessWrittenMatch name = false → rankOf name = 4) := by
    intro name
    constructor
    · intro hbw
      simp only [businessWrittenMatch, Bool.or_eq_true] at hbw
      unfold rankOf
      rcases hbw with (h1 | h2) | h3
      · simp [h1]
      · cases h4 : sqlLike "%Business%Written%" name <;> simp [h4, h2]
      · cases h4 : sqlLike "%Business%Written%" name <;>
          cases h5 : sqlLike "%Business_Written%" name <;> simp [h4, h5, h3]
    · intro hbw
      simp only [businessWrittenMatch, Bool.or_eq_false_iff] at hbw
      obtain ⟨⟨h1, h2⟩, h3⟩ := hbw
      simp [rankOf, h1, h2, h3]
  refine ⟨hmem, ?_, hrank, ?_, ?_⟩
  · intro u hu
    have hle := hmin u hu
    rw [tableKeyLe_iff] at hle
    exact hle
  · rintro ⟨u, hu, hbw⟩
    have hle := hmin u hu
    rw [tableKeyLe_iff] at hle
    by_contra hnot
    have hbwt : businessWrittenMatch t.name = false := by
      cases hb : businessWrittenMatch t.name
      · rfl
      · exact absurd hb hnot
    have h4 : rankOf t.name = 4 := (hrank t.name).2 hbwt
    have hu3 : rankOf u.name ≤ 3 := ((hrank u.name).1 hbw).2
    rcases hle with hlt | ⟨heq, _⟩
    · omega
    · omega
  · intro s e colsOf rows hs he
    simp [handleData, hs, he, h]

/-- The table the scenario of the specification names:
`dbo.BusinessWritten`. -/
def bwTable : CatalogTable :=
  { schema := "dbo", name := "BusinessWritten", tableType := "BASE TABLE",
    cols := [{ name := "WrittenDate", dataType := "datetime", nullable := true },
             { name := "LoanID", dataType := "int", nullable := false },
             { name := "ClientID", dataType := "int", nullable := false },
             { name := "Premium", dataType := "money", nullable := true }] }

/-- A generic-keyword table alphabetically before `BusinessWritten`. -/
def loanTableA : CatalogTable :=
  { schema := "dbo", name := "Aloan", tableType := "BASE TABLE",
    cols := [{ name := "X", dataType := "int", nullable := true }] }

/-- A generic-keyword table alphabetically after `BusinessWritten`. -/
def loanTableZ : CatalogTable :=
  { schema := "dbo", name := "Zloan", tableType := "BASE TABLE",
    cols := [{ name := "X", dataType := "int", nullable := true }] }

/-- A catalog mixing one business-written table with two generic-keyword
tables, listed out of order. -/
def dbRanked : Database :=
  { tables := [loanTableZ, bwTable, loanTableA] }

/-- C2 witness: on the concrete three-table catalog the resolver picks the
business-written table, which is minimal in (rank, name) among all three
candidates. -/
theorem c2_witness :
    bwTable ∈ candidatesOf dbRanked ∧
      businessWrittenMatch bwTable.name = true ∧
      (∀ u ∈ candidatesOf dbRanked,
        rankOf bwTable.name < rankOf u.name ∨
          (rankOf bwTable.name = rankOf u.name ∧ bwTable.name ≤ u.name)) := by
  have h := c2_resolver_ranking dbRanked bwTable (by decide)
  exact ⟨h.1, by decide, h.2.1⟩

/-! ## C5: CreatedDate selection -/

/-- When the first name-pattern date column is a truthy string, it is the
classifier's choice. -/
theorem dateColumnOf_eq_head {recordset : List CatalogColumn} {d : String}
    (hd : ((recordset.map (fun r => r.name)).filter nameDateLike).head? = some d)
    (hne : strTruthy d = true) :
    dateColumnOf recordset = some d := by
  simp only [dateColumnOf, jsOr, hd]
  simp [optTruthy, hne]

/-- C5 counterexample: with columns `[WrittenDate, CreatedDate]` the
classifier selects `WrittenDate`, not `CreatedDate`. -/
def writtenCreatedCols : List CatalogColumn :=
  [{ name := "WrittenDate", dataType := "datetime", nullable := true },
   { name := "CreatedDate", dataType := "datetime", nullable := true }]

/-- C5 counterexample: a column set containing `CreatedDate` for which the
classifier selects a different column. -/
theorem c5_counterexample :
    "CreatedDate" ∈ writtenCreatedCols.map (fun r => r.name) ∧
      dateColumnOf writtenCreatedCols = some "WrittenDate" ∧
      dateColumnOf writtenCreatedCols ≠ some "CreatedDate" := by
  decide

/-- C5 (amended): for every column set containing `CreatedDate`, the
classifier selects the FIRST column whose name contains `date`, `written`,
`created` or `time` (case-insensitive) — such a column always exists, and
it is `CreatedDate` exactly when `CreatedDate` comes first among them. -/
theorem c5_created_date (recordset : List CatalogColumn)
    (h : "CreatedDate" ∈ recordset.map (fun r => r.name)) :
    ∃ d, ((recordset.map (fun r => r.name)).filter nameDateLike).head? = some d ∧
      dateColumnOf recordset = some d ∧ nameDateLike d = true := by
  have hmemf : "CreatedDate" ∈ (recordset.map (fun r => r.name)).filter nameDateLike :=
    List.mem_filter.mpr ⟨h, by decide⟩
  have hne : (recordset.map (fun r => r.name)).filter nameDateLike ≠ [] :=
    List.ne_nil_of_mem hmemf
  obtain ⟨d, rest, hdr⟩ := List.exists_cons_of_ne_nil hne
  have hhead : ((recordset.map (fun r => r.name)).filter nameDateLike).head? = some d := by
    rw [hdr]; rfl
  have hdlike : nameDateLike d = true := by
    have hdm : d ∈ (recordset.map (fun r => r.name)).filter nameDateLike := by
      rw [hdr]; exact List.mem_cons_self _ _
    exact (List.mem_filter.mp hdm).2
  have hdne : strTruthy d = true := by
    by_contra hne'
    have hd0 : d = "" := by simpa [strTruthy] using hne'
    rw [hd0] at hdlike
    exact absurd hdlike (by decide)
  exact ⟨d, hhead, dateColumnOf_eq_head hhead hdne, hdlike⟩

/-- A column set where `CreatedDate` is the first date-like name. -/
def createdOnlyCols : List CatalogColumn :=
  [{ name := "LoanID", dataType := "int", nullable := false },
   { name := "CreatedDate", dataType := "datetime", nullable := true }]

/-- C5 witness: the amended statement instantiated on the concrete column
set, where the selected column is `CreatedDate` itself. -/
theorem c5_witness :
    ∃ d, ((createdOnlyCols.map (fun r => r.name)).filter nameDateLike).head? = some d ∧
      dateColumnOf createdOnlyCols = some d ∧ nameDateLike d = true :=
  c5_created_date createdOnlyCols (by decide)

/-! ## C4: projection invariant -/

/-- C4: over a duplicate-free catalog column list, the projected list is
capped at 50, duplicate-free, starts with the selected date column, and
consists of the date column, then the remaining key-vocabulary columns in
catalog ordinal order, then the remaining columns in catalog ordinal order
(both remainders are order-preserving sublists of the catalog list). -/
theorem c4_projection_invariant (columns : List String) (dc : Option String)
    (hnd : columns.Nodup) :
    (selectColumnsOf columns dc).length ≤ 50 ∧
    (selectColumnsOf columns dc).Nodup ∧
    (∀ d, dc = some d → strTruthy d = true →
      (selectColumnsOf columns dc).head? = some d) ∧
    selectColumnsOf columns dc =
      ((dateColumnPart dc ++ keyRemainder columns dc ++
          otherRemainder columns dc).filter strTruthy).take 50 ∧
    (keyRemainder columns dc).Sublist columns ∧
    (otherRemainder columns dc).Sublist columns ∧
    (∀ c ∈ keyRemainder columns dc, isKeyColumn c = true) ∧
    (∀ c ∈ otherRemainder columns dc, isKeyColumn c = false) := by
  have hkr : (keyRemainder columns dc).Nodup := (hnd.filter _).filter _
  have hor : (otherRemainder columns dc).Nodup := hnd.filter _
  have hdisj : (keyRemainder columns dc).Disjoint (otherRemainder columns dc) := by
    intro c hck hco
    have h1 : c ∈ keyColumnsOf columns := (List.mem_filter.mp hck).1
    have h2 := (List.mem_filter.mp hco).2
    simp at h2
    exact h2.2 h1
  have happ : (keyRemainder columns dc ++ otherRemainder columns dc).Nodup :=
    hkr.append hor hdisj
  have hsel : selectColumnsOf columns dc =
      ((dateColumnPart dc ++ keyRemainder columns dc ++
          otherRemainder columns dc).filter strTruthy).take 50 := rfl
  have hfull : (dateColumnPart dc ++ keyRemainder columns dc ++
      otherRemainder columns dc).Nodup := by
    cases dc with
    | none => simpa [dateColumnPart] using happ
    | some d =>
      have heq : (dateColumnPart (some d) ++ keyRemainder columns (some d) ++
          otherRemainder columns (some d)) =
          d :: (keyRemainder columns (some d) ++ otherRemainder columns (some d)) := by
        simp [dateColumnPart]
      rw [heq]
      refine List.nodup_cons.mpr ⟨?_, happ⟩
      intro hmem
      rcases List.mem_append.mp hmem with hk | ho
      · have hpk := (List.mem_filter.mp hk).2
        simp [neqOptStr] at hpk
      · have hpo := (List.mem_filter.mp ho).2
        simp [neqOptStr] at hpo
  refine ⟨?_, ?_, ?_, hsel, ?_, ?_, ?_, ?_⟩
  · rw [hsel]
    exact (List.length_take _ _).le.trans (min_le_left _ _)
  · rw [hsel]
    exact List.Nodup.sublist (List.take_sublist _ _) (hfull.filter _)
  · rintro d rfl hdt
    rw [hsel]
    simp only [dateColumnPart, List.singleton_append, List.cons_append]
    rw [List.filter_cons_of_pos hdt]
    rfl
  · exact (List.filter_sublist _).trans (List.filter_sublist _)
  · exact List.filter_sublist _
  · intro c hc
    exact (List.mem_filter.mp (List.mem_filter.mp hc).1).2
  · intro c hc
    have hcm := List.mem_filter.mp hc
    have h2 := hcm.2
    simp at h2
    cases hik : isKeyColumn c
    · rfl
    · exact absurd (List.mem_filter.mpr ⟨hcm.1, hik⟩) h2.2

/-- C4 witness: the invariant instantiated on the specification's scenario
columns with `WrittenDate` selected. -/
theorem c4_witness :
    (selectColumnsOf ["WrittenDate", "LoanID", "ClientID", "Premium"]
        (some "WrittenDate")).length ≤ 50 ∧
      (selectColumnsOf ["WrittenDate", "LoanID", "ClientID", "Premium"]
        (some "WrittenDate")).Nodup ∧
      (selectColumnsOf ["WrittenDate", "LoanID", "ClientID", "Premium"]
        (some "WrittenDate")).head? = some "WrittenDate" := by
  have h := c4_projection_invariant ["WrittenDate", "LoanID", "ClientID", "Premium"]
    (some "WrittenDate") (by decide)
  exact ⟨h.1, h.2.1, h.2.2.1 "WrittenDate" rfl (by decide)⟩

/-! ## C3: Query Builder forms -/

/-- Strings with equal character data are equal. -/
theorem strEq_of_data {a b : String} (h : a.data = b.data) : a = b := by
  cases a
  cases b
  exact congrArg String.mk h

/-- String concatenation is associative. -/
theorem strAppend_assoc (a b c : String) : a ++ b ++ c = a ++ (b ++ c) := by
  cases a
  cases b
  cases c
  apply strEq_of_data
  simp

/-- Appending the empty string on the right changes nothing. -/
theorem strAppend_empty (s : String) : s ++ "" = s := by
  cases s
  apply strEq_of_data
  simp

/-- `occursIn needle hay`: the needle appears contiguously in the hay. -/
def occursIn (needle hay : String) : Prop :=
  ∃ a b, hay = a ++ needle ++ b

/-- C3: the emitted query text never depends on the caller's date values;
with a (truthy) date column the text contains `TOP 1000`, a
`WHERE [dc] BETWEEN @startDate AND @endDate` range filter and an
`ORDER BY [dc] DESC` clause, and the two dates travel as the bound
parameters; without a date column the text is the unfiltered
`TOP 1000` form and no parameters are bound. -/
theorem c3_query_builder_forms (schema tableName : String)
    (selectCols : List String) (dc : Option String) (s e s2 e2 : String) :
    buildQueryText schema tableName selectCols dc s e =
      buildQueryText schema tableName selectCols dc s2 e2 ∧
    (∀ d, dc = some d → strTruthy d = true →
      occursIn "TOP 1000" (buildQueryText schema tableName selectCols dc s e) ∧
      occursIn ("WHERE [" ++ d ++ "] BETWEEN @startDate AND @endDate")
        (buildQueryText schema tableName selectCols dc s e) ∧
      occursIn ("ORDER BY [" ++ d ++ "] DESC")
        (buildQueryText schema tableName selectCols dc s e) ∧
      boundParamsOf dc s e = [("startDate", s), ("endDate", e)]) ∧
    (optTruthy dc = false →
      buildQueryText schema tableName selectCols dc s e =
        "SELECT TOP 1000 " ++ selectListOf selectCols ++ " FROM [" ++ schema ++
          "].[" ++ tableName ++ "] ORDER BY (SELECT NULL)" ∧
      boundParamsOf dc s e = []) := by
  refine ⟨rfl, ?_, ?_⟩
  · rintro d rfl hdt
    have htext : buildQueryText schema tableName selectCols (some d) s e =
        "SELECT TOP 1000 " ++ selectListOf selectCols ++ " FROM [" ++ schema ++
        "].[" ++ tableName ++ "] WHERE [" ++ d ++
        "] BETWEEN @startDate AND @endDate ORDER BY [" ++ d ++ "] DESC" := by
      simp [buildQueryText, optTruthy, hdt]
    have hparams : boundParamsOf (some d) s e = [("startDate", s), ("endDate", e)] := by
      simp [boundParamsOf, optTruthy, hdt]
    refine ⟨?_, ?_, ?_, hparams⟩
    · refine ⟨"SELECT ",
        " " ++ selectListOf selectCols ++ " FROM [" ++ schema ++ "].[" ++
          tableName ++ "] WHERE [" ++ d ++
          "] BETWEEN @startDate AND @endDate ORDER BY [" ++ d ++ "] DESC", ?_⟩
      rw [htext]
      rw [show ("SELECT TOP 1000 " : String) = "SELECT " ++ "TOP 1000" ++ " " by decide]
      simp only [strAppend_assoc]
    · refine ⟨"SELECT TOP 1000 " ++ selectListOf selectCols ++ " FROM [" ++
        schema ++ "].[" ++ tableName ++ "] ",
        " ORDER BY [" ++ d ++ "] DESC", ?_⟩
      rw [htext]
      rw [show ("] WHERE [" : String) = "] " ++ "WHERE [" by decide]
      rw [show ("] BETWEEN @startDate AND @endDate ORDER BY [" : String) =
        "] BETWEEN @startDate AND @endDate" ++ " ORDER BY [" by decide]
      simp only [strAppend_assoc]
    · refine ⟨"SELECT TOP 1000 " ++ selectListOf selectCols ++ " FROM [" ++
        schema ++ "].[" ++ tableName ++ "] WHERE [" ++ d ++
        "] BETWEEN @startDate AND @endDate ", "", ?_⟩
      rw [htext]
      rw [show ("] BETWEEN @startDate AND @endDate ORDER BY [" : String) =
        "] BETWEEN @startDate AND @endDate " ++ "ORDER BY [" by decide]
      simp only [strAppend_assoc, strAppend_empty]
  · intro hf
    constructor
    · simp [buildQueryText, hf]
    · simp [boundParamsOf, hf]

/-- C3 witness: the builder instantiated on the specification's scenario
(`dbo.BusinessWritten`, date column `WrittenDate`, January 2024 range). -/
theorem c3_witness :
    occursIn "TOP 1000"
      (buildQueryText "dbo" "BusinessWritten"
        ["WrittenDate", "LoanID", "ClientID", "Premium"] (some "WrittenDate")
        "2024-01-01" "2024-01-31") ∧
    boundParamsOf (some "WrittenDate") "2024-01-01" "2024-01-31" =
      [("startDate", "2024-01-01"), ("endDate", "2024-01-31")] := by
  have h := (c3_query_builder_forms "dbo" "BusinessWritten"
    ["WrittenDate", "LoanID", "ClientID", "Premium"] (some "WrittenDate")
    "2024-01-01" "2024-01-31" "x" "y").2.1 "WrittenDate" rfl (by decide)
  exact ⟨h.1, h.2.2.2⟩

/-! ## C6: fail-closed input validation -/

/-- C6: a request missing `startDate` or `endDate` gets a 400 response with
`success:false`, and the handler performs no database operation at all. -/
theorem c6_fail_closed (s e : Option String) (db : Database)
    (colsOf : String → String → List CatalogColumn)
    (rows : List (List (String × SqlValue)))
    (h : s = none ∨ e = none) :
    (handleData s e db colsOf rows).1.status = 400 ∧
    (handleData s e db colsOf rows).1.success = false ∧
    (handleData s e db colsOf rows).2 = [] := by
  have hcond : (!(optTruthy s) || !(optTruthy e)) = true := by
    rcases h with rfl | rfl
    · simp [optTruthy]
    · simp [optTruthy]
  simp [handleData, hcond]

/-- C6 witness: a request with a start date but no end date, against a
nonempty catalog, is rejected with no database operations. -/
theorem c6_witness :
    (handleData (some "2024-01-01") none (Database.mk [premiumTable])
      (fun _ _ => []) []).1.status = 400 ∧
    (handleData (some "2024-01-01") none (Database.mk [premiumTable])
      (fun _ _ => []) []).1.success = false ∧
    (handleData (some "2024-01-01") none (Database.mk [premiumTable])
      (fun _ _ => []) []).2 = [] :=
  c6_fail_closed (some "2024-01-01") none (Database.mk [premiumTable])
    (fun _ _ => []) [] (Or.inr rfl)

/-! ## C7: error taxonomy totality -/

/-- C7 counterexample: an error whose driver code is `ESOCKET` and whose
message matches no classified pattern reaches the HTTP boundary with the
raw code `ESOCKET`, which is not in the fixed taxonomy. -/
theorem c7_counterexample :
    (classifyError (some "ESOCKET") "socket hang up").1 = "ESOCKET" ∧
      "ESOCKET" ∉ errorTaxonomy ∧
      errorResponseOf (some "ESOCKET") "socket hang up" =
        { status := 500, success := false, errorMessage := "socket hang up",
          errorCode := "ESOCKET" } := by
  decide

/-- C7 (amended): every failure at the boundary yields a 500 response with
`success:false`, and its `errorCode` is either one of the five taxonomy
values or the error's own raw driver code passed through unclassified
(`error.code || 'UNKNOWN'`). -/
theorem c7_error_taxonomy (code : Option String) (message : String) :
    (errorResponseOf code message).status = 500 ∧
    (errorResponseOf code message).success = false ∧
    ((errorResponseOf code message).errorCode ∈ errorTaxonomy ∨
      (∃ c, code = some c ∧ strTruthy c = true ∧
        (errorResponseOf code message).errorCode = c)) := by
  have hcode : (classifyError code message).1 ∈ errorTaxonomy ∨
      (∃ c, code = some c ∧ strTruthy c = true ∧
        (classifyError code message).1 = c) := by
    simp only [classifyError]
    split_ifs with h1 h2 h3 h4 h5
    · exact Or.inl (by simp [errorTaxonomy])
    · exact Or.inl (by simp [errorTaxonomy])
    · exact Or.inl (by simp [errorTaxonomy])
    · exact Or.inl (by simp [errorTaxonomy])
    · exact Or.inl (by simp [errorTaxonomy])
    · cases code with
      | none => exact Or.inl (by simp [errorTaxonomy])
      | some c =>
        cases hc : strTruthy c with
        | false => exact Or.inl (by simp [hc, errorTaxonomy])
        | true => exact Or.inr ⟨c, rfl, hc, by simp [hc]⟩
  exact ⟨rfl, rfl, hcode⟩

/-! ## C8: identifier quoting -/

/-- Modelled from the spec: the target engine's identifier-quoting rule
(T-SQL `QUOTENAME` for bracket delimiters) doubles every closing bracket
inside the identifier; the source applies no such escaping, so this is the
yardstick the claim measures the code against. -/
def escapeCloseBrackets : List Char → List Char
  | [] => []
  | c :: cs =>
      if c = ']' then ']' :: ']' :: escapeCloseBrackets cs
      else c :: escapeCloseBrackets cs

/-- Modelled from the spec: a correctly quoted T-SQL identifier. -/
def tsqlQuoteName (s : String) : String :=
  "[" ++ String.mk (escapeCloseBrackets s.data) ++ "]"

/-- C8 counterexample: an identifier containing `]` is bracketed without
escaping, so the emitted token differs from the engine's quoting rule and
the stray bracket terminates the identifier early. -/
theorem c8_counterexample :
    bracketQuote "a]b" ≠ tsqlQuoteName "a]b" ∧
      bracketQuote "a]b" = "[a]b]" ∧ tsqlQuoteName "a]b" = "[a]]b]" := by
  decide

/-- Escaping is the identity on bracket-free character lists. -/
theorem escape_eq_self {l : List Char} (h : ']' ∉ l) : escapeCloseBrackets l = l := by
  induction l with
  | nil => rfl
  | cons c cs ih =>
    rw [escapeCloseBrackets]
    rw [if_neg (fun hc => h (by rw [hc]; exact List.mem_cons_self _ _))]
    rw [ih (fun hm => h (List.mem_cons_of_mem _ hm))]

/-- C8 (amended): the code wraps identifiers in square brackets WITHOUT
escaping, which coincides with the engine's quoting rule exactly for
identifiers containing no closing bracket; an identifier containing `]`
is emitted unescaped. -/
theorem c8_identifier_quoting (s : String) (h : ']' ∉ s.data) :
    bracketQuote s = tsqlQuoteName s := by
  unfold bracketQuote tsqlQuoteName
  rw [escape_eq_self h]

/-- C8 witness: a realistic catalog identifier is quoted exactly per the
engine rule. -/
theorem c8_witness : bracketQuote "WrittenDate" = tsqlQuoteName "WrittenDate" :=
  c8_identifier_quoting "WrittenDate" (by decide)

/-! ## C9: Result Formatter -/

/-- C9: formatting maps every row cell-wise; non-date cells (null, bool,
number, string) pass through identically; a date cell becomes the
`YYYY-MM-DD` string of its UTC calendar day, which depends only on the UTC
day containing the timestamp (time-of-day is truncated); and the date
`2024-03-15T00:00:00Z` formats to `"2024-03-15"`. -/
theorem c9_result_formatter (rows : List (List (String × SqlValue))) :
    formatRows rows =
      rows.map (fun row => row.map (fun kv => (kv.1, formatCell kv.2))) ∧
    (∀ v, isDateValue v = false → formatCell v = v) ∧
    (∀ ms : Int, formatCell (SqlValue.vDate ms) = SqlValue.vStr (isoDateOf ms)) ∧
    (∀ dday r : Int, 0 ≤ r → r < 86400000 →
      isoDateOf (86400000 * dday + r) = isoDateOf (86400000 * dday)) ∧
    formatCell (SqlValue.vDate 1710460800000) = SqlValue.vStr "2024-03-15" := by
  refine ⟨rfl, ?_, fun _ => rfl, ?_, ?_⟩
  · intro v hv
    cases v with
    | vNull => rfl
    | vBool b => rfl
    | vInt n => rfl
    | vStr s => rfl
    | vDate ms => simp [isDateValue] at hv
  · intro dday r h0 h1
    have hq : (86400000 * dday + r) / 86400000 = 86400000 * dday / 86400000 := by
      omega
    simp only [isoDateOf, hq]
  · decide

/-- C9 witness: a non-date value passes through unchanged, and a timestamp
one hour into a UTC day formats like the day's midnight. -/
theorem c9_witness :
    formatCell (SqlValue.vInt 7) = SqlValue.vInt 7 ∧
      isoDateOf (86400000 * 19797 + 3600000) = isoDateOf (86400000 * 19797) :=
  ⟨(c9_result_formatter []).2.1 (SqlValue.vInt 7) (by decide),
   (c9_result_formatter []).2.2.2.1 19797 3600000 (by decide) (by decide)⟩

/-! ## C10: empty projection is not guarded -/

/-- C10: when the columns query for the resolved table returns no rows
(the code never checks this), classification yields no date column and an
empty projection, yet the handler still builds and submits the query
`SELECT TOP 1000  FROM [schema].[table] ORDER BY (SELECT NULL)` with an
empty select list and no bound parameters, and answers 200 rather than
failing with a classified error before execution. -/
theorem c10_empty_projection (s e : Option String) (db : Database)
    (colsOf : String → String → List CatalogColumn)
    (rows : List (List (String × SqlValue))) (t : CatalogTable)
    (hs : optTruthy s = true) (he : optTruthy e = true)
    (hrt : resolvedTable db = some t)
    (hcols : colsOf (if strTruthy t.schema then t.schema else "dbo") t.name = []) :
    dateColumnOf (colsOf (if strTruthy t.schema then t.schema else "dbo") t.name) = none ∧
    selectColumnsOf
      ((colsOf (if strTruthy t.schema then t.schema else "dbo") t.name).map (fun r => r.name))
      (dateColumnOf (colsOf (if strTruthy t.schema then t.schema else "dbo") t.name)) = [] ∧
    (handleData s e db colsOf rows).1.status = 200 ∧
    DbOp.queryData
      ("SELECT TOP 1000  FROM [" ++ (if strTruthy t.schema then t.schema else "dbo") ++
        "].[" ++ t.name ++ "] ORDER BY (SELECT NULL)") []
      ∈ (handleData s e db colsOf rows).2 := by
  have hdc : dateColumnOf (colsOf (if strTruthy t.schema then t.schema else "dbo") t.name) =
      none := by
    rw [hcols]; rfl
  have hcolsmap :
      (colsOf (if strTruthy t.schema then t.schema else "dbo") t.name).map (fun r => r.name) =
        [] := by
    rw [hcols]; rfl
  have hsel : selectColumnsOf
      ((colsOf (if strTruthy t.schema then t.schema else "dbo") t.name).map (fun r => r.name))
      (dateColumnOf (colsOf (if strTruthy t.schema then t.schema else "dbo") t.name)) = [] := by
    rw [hcolsmap, hdc]; rfl
  have htext : buildQueryText (if strTruthy t.schema then t.schema else "dbo") t.name
      (selectColumnsOf
        ((colsOf (if strTruthy t.schema then t.schema else "dbo") t.name).map (fun r => r.name))
        (dateColumnOf (colsOf (if strTruthy t.schema then t.schema else "dbo") t.name)))
      (dateColumnOf (colsOf (if strTruthy t.schema then t.schema else "dbo") t.name))
      (s.getD "") (e.getD "") =
      "SELECT TOP 1000  FROM [" ++ (if strTruthy t.schema then t.schema else "dbo") ++
        "].[" ++ t.name ++ "] ORDER BY (SELECT NULL)" := by
    rw [hsel, hdc]
    simp only [buildQueryText, optTruthy, Bool.false_eq_true, if_false]
    rw [show selectListOf ([] : List String) = "" from rfl, strAppend_empty]
    rw [show ("SELECT TOP 1000 " : String) ++ " FROM [" = "SELECT TOP 1000  FROM ["
      from by decide]
  have hbp : boundParamsOf
      (dateColumnOf (colsOf (if strTruthy t.schema then t.schema else "dbo") t.name))
      (s.getD "") (e.getD "") = [] := by
    rw [hdc]; rfl
  have hops : (handleData s e db colsOf rows).2 =
      [DbOp.connect, DbOp.queryTables,
       DbOp.queryColumns (if strTruthy t.schema then t.schema else "dbo") t.name,
       DbOp.queryData
         (buildQueryText (if strTruthy t.schema then t.schema else "dbo") t.name
           (selectColumnsOf
             ((colsOf (if strTruthy t.schema then t.schema else "dbo") t.name).map
               (fun r => r.name))
             (dateColumnOf (colsOf (if strTruthy t.schema then t.schema else "dbo") t.name)))
           (dateColumnOf (colsOf (if strTruthy t.schema then t.schema else "dbo") t.name))
           (s.getD "") (e.getD ""))
         (boundParamsOf
           (dateColumnOf (colsOf (if strTruthy t.schema then t.schema else "dbo") t.name))
           (s.getD "") (e.getD ""))] := by
    simp [handleData, hs, he, hrt]
  refine ⟨hdc, hsel, ?_, ?_⟩
  · simp [handleData, hs, he, hrt]
  · rw [hops, htext, hbp]
    simp

/-- C10 witness: against a catalog resolving to the `Aloan` table but a
columns query returning no rows, the handler still submits the
empty-select-list query and answers 200. -/
theorem c10_witness :
    (handleData (some "2024-01-01") (some "2024-01-31") (Database.mk [loanTableA])
        (fun _ _ => []) []).1.status = 200 ∧
      DbOp.queryData
        ("SELECT TOP 1000  FROM [" ++
          (if strTruthy loanTableA.schema then loanTableA.schema else "dbo") ++
          "].[" ++ loanTableA.name ++ "] ORDER BY (SELECT NULL)") []
        ∈ (handleData (some "2024-01-01") (some "2024-01-31") (Database.mk [loanTableA])
            (fun _ _ => []) []).2 := by
  have h := c10_empty_projection (some "2024-01-01") (some "2024-01-31")
    (Database.mk [loanTableA]) (fun _ _ => []) [] loanTableA (by decide) (by decide)
    (by decide) rfl
  exact ⟨h.2.2.1, h.2.2.2⟩
